import Mathlib

/-!
Verification development for the MediaBook backend bootstrap
(src/setupServer.ts). The file embeds the data and control flow of the
MediaBookServer class as executable Lean definitions and proves the
specified properties about them.
-/

namespace MediaBook

/-- The environment configuration object (src/config), as consumed by
setupServer.ts: two session signing secrets, the node environment string,
the single allowed client origin and the broker address. -/
structure Config where
  SECRET_KEY_ONE : String
  SECRET_KEY_TWO : String
  NODE_ENV : String
  CLIENT_URL : String
  REDIS_HOST : String
deriving Repr, DecidableEq

/-- Fixed listening port, setupServer.ts line 18. -/
def SERVER_PORT : Nat := 5000

/-- The http-status-codes constant used by the catch-all handler. -/
def NOT_FOUND : Nat := 404

/-! ## Security middleware: cookie session options (lines 38-45) -/

/-- The options record passed to cookieSession in securityMiddleware. -/
structure CookieSessionOptions where
  name : String
  keys : List String
  maxAge : Nat
  secure : Bool
deriving Repr, DecidableEq

/-- The cookieSession options built by securityMiddleware (lines 39-44):
name: session, keys: the two configured secrets, maxAge: 24 * 7 * 3600000,
secure: NODE_ENV is not development. -/
def cookieSessionOptions (config : Config) : CookieSessionOptions :=
  { name := "session"
  , keys := [config.SECRET_KEY_ONE, config.SECRET_KEY_TWO]
  , maxAge := 24 * 7 * 3600000
  , secure := config.NODE_ENV != "development" }

/-! ## Security middleware: cross-origin options (lines 49-56) -/

/-- The options record passed to the cors middleware in securityMiddleware. -/
structure CorsOptions where
  origin : String
  credentials : Bool
  optionsSuccessStatus : Nat
  methods : List String
deriving Repr, DecidableEq

/-- The cors options built by securityMiddleware (lines 50-55). -/
def corsOptions (config : Config) : CorsOptions :=
  { origin := config.CLIENT_URL
  , credentials := true
  , optionsSuccessStatus := 200
  , methods := ["GET", "POST", "PUT", "DELETE", "OPTIONS"] }

/-- The cors record passed to the Socket.IO Server constructor in
createSocteIO (lines 91-94): only origin and methods are set. -/
structure SocketIOCors where
  origin : String
  methods : List String
deriving Repr, DecidableEq

/-- The Socket.IO cors configuration built in createSocteIO. -/
def socketIOCors (config : Config) : SocketIOCors :=
  { origin := config.CLIENT_URL
  , methods := ["GET", "POST", "PUT", "DELETE", "OPTIONS"] }

/-- The response a preflight OPTIONS request receives from the cors
middleware: the success status, the allow-origin header value (the cors
package with a fixed string origin always emits the configured string),
the allowed method list and whether credentials are allowed. External
collaborator semantics of the cors package for a static string origin. -/
structure PreflightResponse where
  status : Nat
  allowOrigin : String
  allowMethods : List String
  allowCredentials : Bool
deriving Repr, DecidableEq

/-- Preflight handling of the cors middleware for a static string origin:
it answers with optionsSuccessStatus, echoes the configured origin in the
allow-origin header, lists the configured methods, and sets the
credentials header per the options. -/
def preflight (opts : CorsOptions) : PreflightResponse :=
  { status := opts.optionsSuccessStatus
  , allowOrigin := opts.origin
  , allowMethods := opts.methods
  , allowCredentials := opts.credentials }

/-- A browser at origin o is granted cross-origin access by a preflight
response exactly when the allow-origin header names o. -/
def allowsOrigin (r : PreflightResponse) (o : String) : Bool :=
  r.allowOrigin == o

/-- Credentials are permitted for origin o exactly when credentials are
allowed and the allow-origin header names o. -/
def grantsCredentialsTo (r : PreflightResponse) (o : String) : Bool :=
  r.allowCredentials && (r.allowOrigin == o)

/-! ## Standard middleware: body parsing limits (lines 58-62) -/

/-- Options for the json and urlencoded body parsers. The string limit
50mb parses to 50 * 1024 * 1024 bytes. -/
structure BodyParserOptions where
  limit : Nat
  extended : Bool
deriving Repr, DecidableEq

/-- Options of json in standarMiddleware (line 60). The json parser has
no extended flag; it is recorded as false. -/
def jsonOptions : BodyParserOptions :=
  { limit := 50 * 1024 * 1024, extended := false }

/-- Options of urlencoded in standarMiddleware (line 61). -/
def urlencodedOptions : BodyParserOptions :=
  { limit := 50 * 1024 * 1024, extended := true }

/-- External collaborator semantics of the express body parsers at the
configured limit: a body of the given byte size is accepted exactly when
it does not exceed the limit. -/
def acceptsBody (opts : BodyParserOptions) (size : Nat) : Bool :=
  size ≤ opts.limit

/-! ## Error boundary (lines 66-77) -/

/-- One serialized error item of the wire contract. -/
structure SerializedError where
  message : String
  field : Option String
deriving Repr, DecidableEq

/-- The client-visible error body of the wire contract for known errors:
message, statusCode, status, and the serialized error list. -/
structure ErrorBody where
  message : String
  statusCode : Nat
  status : String
  serializeErrors : List SerializedError
deriving Repr, DecidableEq

/-- An operational error of the CustomError hierarchy: it carries its own
statusCode, a message and a status string. -/
structure CustomError where
  message : String
  statusCode : Nat
  status : String
deriving Repr, DecidableEq

/-- Modelled from the spec: CustomError.serializeErrors lives in
src/shared/globals/helpers/error_handler.ts, which is not in the source
tree; the spec gives the wire contract, a body of shape
message, statusCode, status, serializeErrors list of message/field items.
The serialization carries the error message and statusCode of the error. -/
def CustomError.serializeErrors (e : CustomError) : ErrorBody :=
  { message := e.message
  , statusCode := e.statusCode
  , status := e.status
  , serializeErrors := [{ message := e.message, field := none }] }

/-- An error surfaced to the error middleware: either an instance of
CustomError or any other thrown value, carried as its display detail. -/
inductive JsError where
  | customError (e : CustomError)
  | other (detail : String)
deriving Repr, DecidableEq

/-- What the error middleware does with the response: either it writes a
status and a json body (res.status(...).json(...)), or it calls next(),
handing the error to the default framework handler. -/
inductive HandlerResult where
  | response (status : Nat) (body : ErrorBody)
  | next
deriving Repr, DecidableEq

/-- The outcome of running the error middleware on one error: whether
log.error ran, and what was done with the response. -/
structure ErrorHandlerOutcome where
  logged : Bool
  result : HandlerResult
deriving Repr, DecidableEq

/-- The error middleware installed by globalErrorHandler (lines 71-77):
log.error(error) always runs; if the error is an instance of CustomError
the middleware returns res.status(error.statusCode).json(
error.serializeErrors()); otherwise it calls next(). -/
def errorMiddleware (error : JsError) : ErrorHandlerOutcome :=
  { logged := true
  , result :=
      match error with
      | .customError e => .response e.statusCode e.serializeErrors
      | .other _ => .next }

/-- The catch-all handler installed by globalErrorHandler (lines 67-69):
status NOT_FOUND and a json body whose message is the original request
url followed by the text not found. -/
def catchAllHandler (originalUrl : String) : Nat × String :=
  (NOT_FOUND, originalUrl ++ " not found")

/-- Route dispatch through the ordered middleware stack: the application
routes (an external collaborator, registered by routesMiddleware before
globalErrorHandler) get the request first; only a request matching no
registered route reaches the catch-all. -/
def dispatch (routes : String → Option (Nat × String)) (originalUrl : String) :
    Nat × String :=
  match routes originalUrl with
  | some r => r
  | none => catchAllHandler originalUrl

/-! ## createSocteIO event order (lines 89-102) -/

/-- The observable steps of createSocteIO in program order: Server
construction, start of the two broker connects under Promise.all, the two
connect completions, construction of the redis adapter from the pair,
binding it to the server, and returning the server to the caller. -/
inductive BridgeEvent where
  | serverConstructed
  | connectStarted
  | pubConnected
  | subConnected
  | adapterConstructed
  | adapterBound
  | serverReturned
deriving Repr, DecidableEq

/-- All event orders createSocteIO can exhibit. Promise.all is awaited,
so the only nondeterminism is which of the two broker handshakes finishes
first; everything else follows program order, with the await resuming
only after both completions. -/
def createSocteIOTraces : List (List BridgeEvent) :=
  [ [.serverConstructed, .connectStarted, .pubConnected, .subConnected,
     .adapterConstructed, .adapterBound, .serverReturned]
  , [.serverConstructed, .connectStarted, .subConnected, .pubConnected,
     .adapterConstructed, .adapterBound, .serverReturned] ]

/-! ## Bootstrap event order: start (lines 29-35) and startServer (79-88) -/

/-- The observable steps of the bootstrap. start runs the four middleware
installers synchronously, then invokes startServer; startServer constructs
the http server and awaits createSocteIO, so start returns when the await
suspends; the resumed continuation either sees broker readiness and
listens and wires connections, or catches the broker failure and logs it.
processExit and retryStarted are steps the code could take but never
does. -/
inductive BootEvent where
  | securityMiddlewareDone
  | standarMiddlewareDone
  | routesMiddlewareDone
  | globalErrorHandlerDone
  | startServerBegin
  | httpServerConstructed
  | startReturns
  | brokerReady
  | errorLogged
  | httpListening
  | socketConnectionsWired
  | processExit
  | retryStarted
deriving Repr, DecidableEq

/-- The bootstrap event order, conditioned on whether establishing either
broker connection fails inside the awaited createSocteIO. On failure the
catch block in startServer logs the error and does nothing else; on
success startHttpServer listens and socketIOConnections is invoked. -/
def startTrace (brokerFails : Bool) : List BootEvent :=
  [.securityMiddlewareDone, .standarMiddlewareDone, .routesMiddlewareDone,
   .globalErrorHandlerDone, .startServerBegin, .httpServerConstructed,
   .startReturns] ++
  (if brokerFails then [.errorLogged]
   else [.brokerReady, .httpListening, .socketConnectionsWired])

/-! ## socketIOConnections (line 110) -/

/-- The mutable registration state of a Socket.IO server: the handlers
registered for connection events, channel joins and named events. -/
structure SocketIOServer where
  connectionHandlers : List String
  joinHandlers : List String
  eventHandlers : List String
deriving Repr, DecidableEq

/-- socketIOConnections as written on line 110: its body is empty, so it
registers nothing and leaves the server state unchanged. -/
def socketIOConnections (srv : SocketIOServer) : SocketIOServer :=
  srv

/-- A concrete configuration used to evaluate the definitions on sample
inputs. -/
def sampleConfig : Config :=
  { SECRET_KEY_ONE := "key-one"
  , SECRET_KEY_TWO := "key-two"
  , NODE_ENV := "production"
  , CLIENT_URL := "http://localhost:3000"
  , REDIS_HOST := "redis://localhost:6379" }

/-! ## Theorems -/

/-- C1: the claim says the error middleware terminates the response with a
generic failure status for errors that are not CustomError instances. The
code instead logs the error and calls next(), falling through to the
default framework handler: evaluated here on a concrete unclassified
error. -/
theorem c1_unclassified_falls_through :
    errorMiddleware (.other "TypeError: boom") =
      { logged := true, result := .next } :=
  rfl

/-- C2: every request whose url matches no registered route receives
status 404 with body message equal to the original url followed by the
text not found. -/
theorem c2_unmatched_url_404 (routes : String → Option (Nat × String))
    (url : String) (h : routes url = none) :
    dispatch routes url = (404, url ++ " not found") := by
  simp [dispatch, h, catchAllHandler, NOT_FOUND]

/-- Witness for C2 at a concrete empty route table and url. -/
theorem c2_unmatched_url_404_witness :
    (fun _ : String => (none : Option (Nat × String))) "/missing" = none ∧
    dispatch (fun _ : String => (none : Option (Nat × String))) "/missing" =
      (404, "/missing not found") :=
  ⟨rfl, c2_unmatched_url_404 (fun _ => none) "/missing" rfl⟩

/-- C3: in every event order createSocteIO can exhibit, the redis adapter
is constructed only after both the publish and the subscribe connection
have completed their handshakes, and the server is returned to the caller
only after the adapter is bound: the adapter is never exposed before both
connect completions. -/
theorem c3_adapter_after_both_connects (t : List BridgeEvent)
    (h : t ∈ createSocteIOTraces) :
    t.indexOf .pubConnected < t.indexOf .adapterConstructed ∧
    t.indexOf .subConnected < t.indexOf .adapterConstructed ∧
    t.indexOf .connectStarted < t.indexOf .pubConnected ∧
    t.indexOf .connectStarted < t.indexOf .subConnected ∧
    t.indexOf .adapterConstructed < t.indexOf .adapterBound ∧
    t.indexOf .adapterBound < t.indexOf .serverReturned := by
  simp only [createSocteIOTraces, List.mem_cons, List.mem_singleton,
    List.not_mem_nil, or_false] at h
  rcases h with h | h <;> subst h <;> decide

/-- Witness for C3 at the first admissible trace. -/
theorem c3_adapter_after_both_connects_witness :
    ([.serverConstructed, .connectStarted, .pubConnected, .subConnected,
      .adapterConstructed, .adapterBound, .serverReturned] ∈
        createSocteIOTraces) ∧
    ([.serverConstructed, .connectStarted, .pubConnected, .subConnected,
      .adapterConstructed, .adapterBound,
      .serverReturned] : List BridgeEvent).indexOf .pubConnected <
      ([.serverConstructed, .connectStarted, .pubConnected, .subConnected,
        .adapterConstructed, .adapterBound,
        .serverReturned] : List BridgeEvent).indexOf .adapterConstructed :=
  ⟨by decide, (c3_adapter_after_both_connects _ (by decide)).1⟩

/-- C4: when establishing either broker connection fails inside the
awaited createSocteIO, the bootstrap logs the error, never reaches the
listening step, does not exit the process and does not retry: the gateway
startup step runs exactly once. -/
theorem c4_broker_failure_no_listen (brokerFails : Bool)
    (h : brokerFails = true) :
    BootEvent.errorLogged ∈ startTrace brokerFails ∧
    BootEvent.httpListening ∉ startTrace brokerFails ∧
    BootEvent.processExit ∉ startTrace brokerFails ∧
    BootEvent.retryStarted ∉ startTrace brokerFails ∧
    (startTrace brokerFails).count .startServerBegin = 1 := by
  subst h; decide

/-- Witness for C4 at the failing case. -/
theorem c4_broker_failure_no_listen_witness :
    (true = true) ∧ BootEvent.errorLogged ∈ startTrace true :=
  ⟨rfl, (c4_broker_failure_no_listen true rfl).1⟩

/-- C5: for every CustomError instance the error middleware logs it and
responds with the error statusCode and its serialized body, whose message
field is the error message; in particular a CustomError with statusCode
400 and message Validation error yields status 400 and a body whose
message is Validation error. -/
theorem c5_custom_error_serialized (e : CustomError) :
    (errorMiddleware (.customError e)).logged = true ∧
    (errorMiddleware (.customError e)).result =
      .response e.statusCode e.serializeErrors ∧
    e.serializeErrors.message = e.message ∧
    e.serializeErrors.statusCode = e.statusCode ∧
    (errorMiddleware (.customError
        { message := "Validation error", statusCode := 400,
          status := "error" })).result =
      .response 400
        { message := "Validation error", statusCode := 400,
          status := "error",
          serializeErrors := [{ message := "Validation error",
                                field := none }] } :=
  ⟨rfl, rfl, rfl, rfl, rfl⟩

/-- C6: the session credential options have name session, exactly the two
configured signing keys, a max age of exactly seven days in milliseconds,
and the secure flag is false exactly when the environment is
development. -/
theorem c6_session_options (config : Config) :
    (cookieSessionOptions config).name = "session" ∧
    (cookieSessionOptions config).keys =
      [config.SECRET_KEY_ONE, config.SECRET_KEY_TWO] ∧
    (cookieSessionOptions config).keys.length = 2 ∧
    (cookieSessionOptions config).maxAge = 7 * 24 * 3600 * 1000 ∧
    ((cookieSessionOptions config).secure = false ↔
      config.NODE_ENV = "development") := by
  refine ⟨rfl, rfl, rfl, by norm_num [cookieSessionOptions], ?_⟩
  simp [cookieSessionOptions]

/-- C7: start installs the stages strictly in order security middleware,
standard middleware, routes, error boundary, then gateway startup, the
synchronous stages completing before start returns; and in the successful
bootstrap, listening begins only after broker readiness has been awaited,
which in turn happens only after start has returned; in the failing
bootstrap no listening happens at all. -/
theorem c7_bootstrap_order :
    (startTrace false).indexOf .securityMiddlewareDone <
      (startTrace false).indexOf .standarMiddlewareDone ∧
    (startTrace false).indexOf .standarMiddlewareDone <
      (startTrace false).indexOf .routesMiddlewareDone ∧
    (startTrace false).indexOf .routesMiddlewareDone <
      (startTrace false).indexOf .globalErrorHandlerDone ∧
    (startTrace false).indexOf .globalErrorHandlerDone <
      (startTrace false).indexOf .startServerBegin ∧
    (startTrace false).indexOf .startServerBegin <
      (startTrace false).indexOf .startReturns ∧
    (startTrace false).indexOf .startReturns <
      (startTrace false).indexOf .brokerReady ∧
    (startTrace false).indexOf .brokerReady <
      (startTrace false).indexOf .httpListening ∧
    BootEvent.httpListening ∉ startTrace true := by
  decide

/-- C8: the cross-origin policy shares the single configured origin
between the request pipeline and the gateway handshake with exactly the
five configured methods; a preflight from the configured origin gets
status 200 with exactly those methods and credentials, while any other
origin is neither allowed nor granted credentials. -/
theorem c8_cors_policy (config : Config) (o : String)
    (h : o ≠ config.CLIENT_URL) :
    (preflight (corsOptions config)).status = 200 ∧
    (preflight (corsOptions config)).allowMethods =
      ["GET", "POST", "PUT", "DELETE", "OPTIONS"] ∧
    allowsOrigin (preflight (corsOptions config)) config.CLIENT_URL = true ∧
    grantsCredentialsTo (preflight (corsOptions config)) config.CLIENT_URL =
      true ∧
    allowsOrigin (preflight (corsOptions config)) o = false ∧
    grantsCredentialsTo (preflight (corsOptions config)) o = false ∧
    (socketIOCors config).origin = config.CLIENT_URL ∧
    (socketIOCors config).methods = (corsOptions config).methods := by
  refine ⟨rfl, rfl, by simp [allowsOrigin, preflight, corsOptions],
    by simp [grantsCredentialsTo, preflight, corsOptions], ?_, ?_, rfl, rfl⟩
  · simp [allowsOrigin, preflight, corsOptions]
    exact fun hc => h hc.symm
  · simp [grantsCredentialsTo, preflight, corsOptions]
    exact fun hc => h hc.symm

/-- Witness for C8 at a concrete configuration and a concrete foreign
origin. -/
theorem c8_cors_policy_witness :
    ("http://evil.example" ≠ (sampleConfig).CLIENT_URL) ∧
    allowsOrigin (preflight (corsOptions sampleConfig))
      "http://evil.example" = false :=
  ⟨by decide, (c8_cors_policy sampleConfig "http://evil.example"
      (by decide)).2.2.2.2.1⟩

/-- C9: the gateway connection step leaves every Socket.IO server state
unchanged: it registers no connection, join or event handlers and has no
effect. -/
theorem c9_socket_connections_no_effect (srv : SocketIOServer) :
    socketIOConnections srv = srv ∧
    (socketIOConnections srv).connectionHandlers = srv.connectionHandlers ∧
    (socketIOConnections srv).joinHandlers = srv.joinHandlers ∧
    (socketIOConnections srv).eventHandlers = srv.eventHandlers :=
  ⟨rfl, rfl, rfl, rfl⟩

/-- C10: both body parsers are configured with a 50mb limit, and every
body strictly larger than 50mb is rejected by both; the body parsing
stage is installed before route dispatch in the bootstrap order. -/
theorem c10_body_limit (size : Nat) (h : 50 * 1024 * 1024 < size) :
    acceptsBody jsonOptions size = false ∧
    acceptsBody urlencodedOptions size = false ∧
    jsonOptions.limit = 50 * 1024 * 1024 ∧
    urlencodedOptions.limit = 50 * 1024 * 1024 ∧
    (startTrace false).indexOf .standarMiddlewareDone <
      (startTrace false).indexOf .routesMiddlewareDone := by
  refine ⟨?_, ?_, rfl, rfl, by decide⟩ <;>
    simp [acceptsBody, jsonOptions, urlencodedOptions] <;> omega

/-- Witness for C10 at one byte past the limit. -/
theorem c10_body_limit_witness :
    50 * 1024 * 1024 < 52428801 ∧
    acceptsBody jsonOptions 52428801 = false :=
  ⟨by norm_num, (c10_body_limit 52428801 (by norm_num)).1⟩

end MediaBook
